import Mathlib

/-!
Verification of the acquisition-and-identity core of the animechanica media
server against its natural-language specification.

The Go sources are shallowly embedded: pure computations become Lean
functions; calls to external collaborators (the torrent daemon, the metadata
platform, provider extensions, the database) are modelled by environment
records whose fields give the outcome of each collaborator call, and each
handler returns the trace of daemon operations it performed together with its
HTTP-level result.  Machine integers from Go are modelled as `Int`.
-/

namespace Animechanica

/-! ## String helpers -/

/-- List-level prefix test, structural recursion so that the kernel can
evaluate it.  `listStartsWith p s` is true when `p` is an initial segment
of `s`. -/
def listStartsWith : List Char → List Char → Bool
  | [], _ => true
  | _ :: _, [] => false
  | c :: cs, d :: ds => c = d && listStartsWith cs ds

/-- Embedding of Go `strings.HasPrefix d s`-style tests (argument order:
`strStartsWith d s` is true when `d` is an initial substring of `s`). -/
def strStartsWith (d s : String) : Bool :=
  listStartsWith d.data s.data

/-- Modelled from the spec: `util.NormalizePath` is not among the provided
sources; the spec (section 3) says destination paths are stored
"normalized (case/separator-canonicalized)", so we lowercase every character
and turn backslashes into forward slashes. -/
def normChar (c : Char) : Char :=
  if c = '\\' then '/' else c.toLower

/-- Modelled from the spec: path normalization, see `normChar`. -/
def NormalizePath (p : String) : String :=
  ⟨p.data.map normChar⟩

/-- The matching notion the spec demands for `getForPath` (section 4.4):
the destination must be a whole-path-segment prefix of the file path, i.e.
either equal to it or extended by a path separator.  This definition follows
the words of the spec, for comparison with the source behaviour. -/
def wholeSegmentMatch (d p : String) : Bool :=
  d = p || strStartsWith (d ++ "/") p

/-! ## Pre-match store (from the `db` package source) -/

/-- One row of the torrent pre-match table: destination path and media id.
The creation timestamp column only matters for the age-based cleanup, which
is analysed separately through the SQL modifier it builds. -/
structure TorrentPreMatch where
  destination : String
  mediaId : Int
deriving DecidableEq, Repr

/-- Update the media id of the first row whose destination equals `d`
(gorm `First` + `Save` touch a single row). -/
def updateFirstPreMatch : List TorrentPreMatch → String → Int → List TorrentPreMatch
  | [], _, _ => []
  | pm :: rest, d, mediaId =>
    if pm.destination = d then { pm with mediaId := mediaId } :: rest
    else pm :: updateFirstPreMatch rest d mediaId

/-- Embedding of `Database.SaveTorrentPreMatch`: normalize the destination,
update the existing row for that destination if there is one, otherwise
append a fresh row. -/
def SaveTorrentPreMatch (store : List TorrentPreMatch) (destination : String)
    (mediaId : Int) : List TorrentPreMatch :=
  let d := NormalizePath destination
  if store.any (fun pm => pm.destination = d) then
    updateFirstPreMatch store d mediaId
  else
    store ++ [{ destination := d, mediaId := mediaId }]

/-- Embedding of `Database.GetTorrentPreMatchForFilePath`: normalize the
file path, scan the rows in stored order and return the media id of the
first row whose normalized destination is a raw string prefix of the
normalized file path (`strings.HasPrefix` in the source).  Go returns
`(0, false)` on a miss, embedded as `none`. -/
def GetTorrentPreMatchForFilePath (store : List TorrentPreMatch)
    (filePath : String) : Option Int :=
  let fp := NormalizePath filePath
  (store.find? fun pm => strStartsWith (NormalizePath pm.destination) fp).map
    (fun pm => pm.mediaId)

/-- Embedding of the SQLite age-cutoff modifier built by
`Database.CleanupOldTorrentPreMatches`: the Go source writes
`"-" + string(rune(days)) + " days"`, which converts the day count to a
single character whose code point is `days`, not to its decimal digits. -/
def cleanupAgeModifier (days : Nat) : String :=
  "-" ++ String.mk [Char.ofNat days] ++ " days"

/-- The age-cutoff modifier the claim describes: the decimal representation
of the day count. -/
def claimedAgeModifier (days : Nat) : String :=
  "-" ++ toString days ++ " days"

/-! ## Sessions and users (from the `session` package source) -/

/-- Opaque embedding of `anilist.GetViewer_Viewer`: the core only ever
copies the viewer record around, so its name field suffices. -/
structure GetViewer_Viewer where
  Name : String
deriving DecidableEq, Repr

/-- Embedding of `session.Session`.  Timestamps are abstract instants
(`Nat`). -/
structure Session where
  ID : String
  Token : String
  Username : String
  Viewer : Option GetViewer_Viewer
  CreatedAt : Nat
  LastAccessed : Nat
  IsSimulated : Bool
deriving DecidableEq, Repr

/-- Embedding of `user.User` (only the fields `Session.ToUser` writes). -/
structure User where
  Viewer : Option GetViewer_Viewer
  Token : String
  IsSimulated : Bool
deriving DecidableEq, Repr

/-- Modelled from the spec: `user.NewSimulatedUser` and
`user.SimulatedUserToken` are outside the provided sources; the spec
describes the simulated user as the guest identity with no real
authentication, carrying a fixed placeholder token (its exact value is
immaterial to the claims). -/
def SimulatedUserToken : String := "SIMULATED_USER_TOKEN"

/-- Modelled from the spec: the simulated (guest) user record, see
`SimulatedUserToken`. -/
def NewSimulatedUser : User :=
  { Viewer := none, Token := SimulatedUserToken, IsSimulated := true }

/-- Embedding of `Session.ToUser`: a simulated or empty-token session yields
the simulated user; otherwise the viewer is copied and the token field is
the fixed placeholder string. -/
def Session.ToUser (s : Session) : User :=
  if s.IsSimulated || s.Token = "" then NewSimulatedUser
  else { Viewer := s.Viewer, Token := "HIDDEN", IsSimulated := false }

/-- Embedding of `Store.GetSession`.  The session map is a function from
session id to stored session; `now` is the current instant supplied by
`time.Now()`.  On a miss a fresh simulated session is created and stored;
on a hit the stored session has its last-accessed time updated in place
(the Go code mutates the stored object and returns the same pointer, so
the returned session and the stored one coincide). -/
def GetSession (sessions : String → Option Session) (sessionID : String)
    (now : Nat) : Session × (String → Option Session) :=
  match sessions sessionID with
  | none =>
    let s : Session :=
      { ID := sessionID, Token := "", Username := "", Viewer := none,
        CreatedAt := now, LastAccessed := now, IsSimulated := true }
    (s, fun k => if k = sessionID then some s else sessions k)
  | some s =>
    let s1 := { s with LastAccessed := now }
    (s1, fun k => if k = sessionID then some s1 else sessions k)

/-! ## Progress updates (from `core/anilist.go`) -/

/-- Embedding of `anilist.MediaListStatus` (the two values this code path
writes). -/
inductive MediaListStatus where
  | current
  | completed
deriving DecidableEq, Repr

/-- The observable effect of `App.UpdateEntryProgressForSession`: either the
global platform receives the raw update, or the session-specific client
receives the possibly clamped progress and the computed list status. -/
inductive ProgressCall where
  | globalPlatform (mediaId progress : Int) (totalEpisodes : Option Int)
  | sessionClient (mediaId progress : Int) (status : MediaListStatus)
deriving DecidableEq, Repr

/-- Embedding of `App.UpdateEntryProgressForSession`.  `hasStore` models
`a.SessionStore != nil`, `sess` the result of `GetSession`, `hasClient`
whether `GetAnilistClient` returned a non-nil client.  The fallbacks and
the status/clamp computation mirror the source line by line. -/
def UpdateEntryProgressForSession (hasStore : Bool) (sessionID : String)
    (sess : Option Session) (hasClient : Bool)
    (mediaId progress : Int) (totalEpisodes : Option Int) : ProgressCall :=
  if sessionID = "" || !hasStore then
    .globalPlatform mediaId progress totalEpisodes
  else
    match sess with
    | none => .globalPlatform mediaId progress totalEpisodes
    | some s =>
      if s.IsSimulated || s.Token = "" then
        .globalPlatform mediaId progress totalEpisodes
      else if !hasClient then
        .globalPlatform mediaId progress totalEpisodes
      else
        let realTotalCount : Int :=
          match totalEpisodes with
          | some t => if t > 0 then t else 0
          | none => 0
        let status :=
          if realTotalCount > 0 ∧ progress ≥ realTotalCount then
            MediaListStatus.completed
          else MediaListStatus.current
        let clamped :=
          if realTotalCount > 0 ∧ progress > realTotalCount then realTotalCount
          else progress
        .sessionClient mediaId clamped status

/-! ## Torrent-client handlers (from the `handlers` package source)

External collaborators are modelled by environment records: a field of type
`Except String α` gives the outcome of the corresponding collaborator call,
and each handler additionally returns the trace of operations it issued to
the torrent daemon. -/

/-- Embedding of `hibiketorrent.AnimeTorrent` (the fields the handlers
read). -/
structure AnimeTorrent where
  Provider : String
  InfoHash : String
deriving DecidableEq, Repr, Inhabited

/-- Behaviour of the provider-extension collaborator: whether an extension
is registered for a provider name, and the result of
`GetTorrentMagnetLink`. -/
structure TorrentProviderEnv where
  providerFound : String → Bool
  magnetLink : AnimeTorrent → Except String String

/-- Embedding of the magnet-resolution loop of `HandleTorrentClientDownload`:
one provider lookup and one magnet resolution per torrent, in order; the
first failure aborts the whole batch with that error. -/
def resolveMagnets (env : TorrentProviderEnv) :
    List AnimeTorrent → Except String (List String)
  | [] => .ok []
  | t :: rest =>
    if env.providerFound t.Provider then
      match env.magnetLink t with
      | .ok m => (resolveMagnets env rest).map (fun ms => m :: ms)
      | .error e => .error e
    else .error "provider extension not found for torrent"

/-- Operations issued to the torrent daemon by the download handler. -/
inductive DaemonOp where
  | start
  | smartSelect (torrent : AnimeTorrent) (episodes : List Int) (destination : String)
  | deselectAndDownload (torrent : AnimeTorrent) (indices : List Int) (destination : String)
  | addMagnets (magnets : List String) (destination : String)
deriving DecidableEq, Repr

/-- Outcomes of the daemon calls the download handler can make. -/
structure DownloadEnv where
  startOk : Bool
  smartSelectResult : Except String Unit
  deselectResult : Except String Unit
  addMagnetsResult : Except String Unit
  provider : TorrentProviderEnv

/-- The `smartSelect` part of the download request body. -/
structure SmartSelectOpts where
  enabled : Bool
  missingEpisodeNumbers : List Int
deriving DecidableEq, Repr

/-- The `deselect` part of the download request body. -/
structure DeselectOpts where
  enabled : Bool
  indices : List Int
deriving DecidableEq, Repr

/-- Embedding of `anilist.BaseAnime` (only the id is consumed here). -/
structure BaseAnime where
  ID : Int
deriving DecidableEq, Repr

/-- The download request body.  The Go field `Media` is a pointer that the
handler dereferences before its nil check, so the embedding covers requests
with a media value present (a nil media panics in the source before any
branch of interest runs). -/
structure DownloadBody where
  torrents : List AnimeTorrent
  destination : String
  smartSelect : SmartSelectOpts
  deselect : DeselectOpts
  media : BaseAnime
deriving DecidableEq, Repr

/-- Embedding of Go `filepath.IsAbs` on unix: the path starts with a slash. -/
def isAbs (p : String) : Bool :=
  strStartsWith "/" p

/-- The branch structure of `HandleTorrentClientDownload` after the
smart-select block: the source has `if b.Deselect.Enabled { ... } else
{ resolve magnets; AddMagnets }` with no connection to the smart-select
block above it.  The source indexes `b.Torrents[0]` (panic on an empty
slice); the embedding uses `headD` and the theorems restrict to non-empty
torrent lists where that branch is exercised. -/
def afterSmartSelect (env : DownloadEnv) (b : DownloadBody)
    (trace : List DaemonOp) : List DaemonOp × Except String Bool :=
  if b.deselect.enabled then
    let t := b.torrents.headD default
    let trace1 := trace ++ [DaemonOp.deselectAndDownload t b.deselect.indices b.destination]
    match env.deselectResult with
    | .error e => (trace1, .error e)
    | .ok _ => (trace1, .ok true)
  else
    match resolveMagnets env.provider b.torrents with
    | .error e => (trace, .error e)
    | .ok magnets =>
      let trace1 := trace ++ [DaemonOp.addMagnets magnets b.destination]
      match env.addMagnetsResult with
      | .error e => (trace1, .error e)
      | .ok _ => (trace1, .ok true)

/-- Embedding of `HandleTorrentClientDownload`: destination validation,
daemon start, metadata enrichment (which always succeeds observably, by
falling back to the caller-supplied media, and is therefore not part of the
trace), then the smart-select block followed — without an `else` — by the
deselect/plain-add alternative.  The subsequent pre-match persistence and
the asynchronous collection sync are logged-only side work with no effect
on the daemon trace or the response, and are elided. -/
def HandleTorrentClientDownload (env : DownloadEnv) (b : DownloadBody) :
    List DaemonOp × Except String Bool :=
  if b.destination = "" then ([], .error "destination not found")
  else if !isAbs b.destination then ([], .error "destination path must be absolute")
  else if !env.startOk then
    ([DaemonOp.start],
     .error "could not contact torrent client, verify your settings or make sure it's running")
  else
    let trace0 := [DaemonOp.start]
    if b.smartSelect.enabled then
      if b.torrents.length > 1 then
        (trace0, .error "smart select is not supported for multiple torrents")
      else
        let t := b.torrents.headD default
        let trace1 := trace0 ++
          [DaemonOp.smartSelect t b.smartSelect.missingEpisodeNumbers b.destination]
        match env.smartSelectResult with
        | .error e => (trace1, .error e)
        | .ok _ => afterSmartSelect env b trace1
    else
      afterSmartSelect env b trace0

/-! ## Active-torrent listing (from `HandleGetActiveTorrentList`) -/

/-- Embedding of `torrent_client.Torrent` (the fields these handlers read).
The progress field is a `float64` in the source; it is only ever copied
through, so it is embedded as an opaque numeric carrier. -/
structure Torrent where
  hash : String
  status : String
  progress : Int
  contentPath : String
deriving DecidableEq, Repr

/-- Calls the listing handler makes on the torrent-client repository. -/
inductive TCOp where
  | getActiveTorrents
  | start
deriving DecidableEq, Repr

/-- An HTTP-level handler outcome: `RespondWithData` or
`RespondWithError`. -/
inductive HandlerResult (α : Type) where
  | data (a : α)
  | error (msg : String)
deriving DecidableEq, Repr

/-- Collaborator outcomes for `HandleGetActiveTorrentList`: the first
listing attempt, the restart attempt, and the retried listing attempt.
Go returns a pair `(res, err)` from the retried call; both components are
modelled because the handler uses `res` without checking `err`. -/
structure ActiveListEnv where
  firstList : Except String (List Torrent)
  startOk : Bool
  retryListRes : List Torrent
  retryListErr : Option String

/-- Embedding of `HandleGetActiveTorrentList`: list; on failure start the
client, propagating a restart failure; then retry the listing once and
respond with the retried result — the source never checks the error of the
retried call. -/
def HandleGetActiveTorrentList (env : ActiveListEnv) :
    List TCOp × HandlerResult (List Torrent) :=
  match env.firstList with
  | .ok res => ([TCOp.getActiveTorrents], .data res)
  | .error _ =>
    if !env.startOk then
      ([TCOp.getActiveTorrents, TCOp.start],
       .error "could not start torrent client, verify your settings")
    else
      ([TCOp.getActiveTorrents, TCOp.start, TCOp.getActiveTorrents],
       .data env.retryListRes)

/-! ## File probing (from `HandleTorrentClientGetFiles`) -/

/-- The request body of the file-probe handler. -/
structure GetFilesBody where
  torrent : Option AnimeTorrent
  provider : String
deriving Repr

/-- Collaborator outcomes for `HandleTorrentClientGetFiles`: temp-dir
creation, provider resolution, and the three daemon calls. -/
structure GetFilesEnv where
  mkdirTempOk : Bool
  provider : TorrentProviderEnv
  addMagnetsResult : Except String Unit
  getFilesResult : Except String (List String)
  removeResult : Except String Unit

/-- Operations the file-probe handler issues to the daemon. -/
inductive ProbeOp where
  | addMagnets (magnet : String) (dir : String)
  | getFiles (hash : String)
  | removeTorrents (hash : String)
deriving DecidableEq, Repr

/-- Embedding of `HandleTorrentClientGetFiles`.  `daemon` is the set of
info hashes the daemon currently tracks (as a list); the result is the
trace of daemon operations, the daemon state after the handler returns,
and the HTTP-level outcome.  Mirrors the source: validate; make a temp
dir; resolve the magnet; add the torrent only when it is not already
tracked (a failed add is returned bare, leaving the daemon unchanged);
list the files, and on a listing failure respond with the error — the
source performs no removal on that path; on success remove the torrent
only when it was transiently added, ignoring a removal failure. -/
def HandleTorrentClientGetFiles (env : GetFilesEnv) (daemon : List String)
    (b : GetFilesBody) :
    List ProbeOp × List String × HandlerResult (List String) :=
  match b.torrent with
  | none => ([], daemon, .error "missing arguments")
  | some t =>
    if t.InfoHash = "" then ([], daemon, .error "missing arguments")
    else if !env.mkdirTempOk then ([], daemon, .error "MkdirTemp failed")
    else if !env.provider.providerFound b.provider then
      ([], daemon, .error "provider extension not found for torrent")
    else
      match env.provider.magnetLink t with
      | .error e => ([], daemon, .error e)
      | .ok magnet =>
        if daemon.contains t.InfoHash then
          match env.getFilesResult with
          | .error e => ([ProbeOp.getFiles t.InfoHash], daemon, .error e)
          | .ok files => ([ProbeOp.getFiles t.InfoHash], daemon, .data files)
        else
          match env.addMagnetsResult with
          | .error e => ([ProbeOp.addMagnets magnet "tempDir"], daemon, .error e)
          | .ok _ =>
            let daemon1 := daemon ++ [t.InfoHash]
            match env.getFilesResult with
            | .error e =>
              ([ProbeOp.addMagnets magnet "tempDir", ProbeOp.getFiles t.InfoHash],
               daemon1, .error e)
            | .ok files =>
              let ops := [ProbeOp.addMagnets magnet "tempDir",
                ProbeOp.getFiles t.InfoHash, ProbeOp.removeTorrents t.InfoHash]
              match env.removeResult with
              | .error _ => (ops, daemon1, .data files)
              | .ok _ =>
                (ops, daemon1.filter (fun h => h ≠ t.InfoHash), .data files)

/-! ## Media downloading status (from `HandleGetMediaDownloadingStatus`) -/

/-- Embedding of `handlers.MediaDownloadStatus`. -/
structure MediaDownloadStatus where
  MediaId : Int
  Status : String
  Progress : Int
deriving DecidableEq, Repr

/-- Assignment into the `destToMediaId` Go map: overwrite the value of an
existing key in place, otherwise append the binding. -/
def insertDest : List (String × Int) → String → Int → List (String × Int)
  | [], k, v => [(k, v)]
  | (k0, v0) :: rest, k, v =>
    if k0 = k then (k0, v) :: rest else (k0, v0) :: insertDest rest k v

/-- Embedding of the construction of `destToMediaId`: one assignment per
pre-match entry, keyed by the normalized destination (later entries with
the same normalized destination overwrite earlier ones). -/
def buildDestToMediaId (pms : List TorrentPreMatch) : List (String × Int) :=
  pms.foldl (fun m pm => insertDest m (NormalizePath pm.destination) pm.mediaId) []

/-- Embedding of the matching loop of `HandleGetMediaDownloadingStatus`:
for each torrent in daemon-list order, find the first destination in the
index that is a raw string prefix of the normalized content path; emit one
record unless that media id was already emitted; in either case stop
scanning destinations for this torrent (`break` in the source).
`destIndex` is the iteration order of the Go map, which the language leaves
unspecified — see `HandleGetMediaDownloadingStatus`. -/
def matchTorrents (destIndex : List (String × Int)) (added : List Int) :
    List Torrent → List MediaDownloadStatus
  | [] => []
  | t :: rest =>
    let cp := NormalizePath t.contentPath
    match destIndex.find? (fun dm => strStartsWith dm.1 cp) with
    | some dm =>
      if dm.2 ∈ added then matchTorrents destIndex added rest
      else
        { MediaId := dm.2, Status := t.status, Progress := t.progress } ::
          matchTorrents destIndex (dm.2 :: added) rest
    | none => matchTorrents destIndex added rest

/-- Embedding of `HandleGetMediaDownloadingStatus`.  A failure fetching the
active torrents or the pre-match entries yields the empty result as data.
`pick` models the unspecified iteration order of the Go map
`destToMediaId`: it may be any function producing a permutation of the
bindings (the identity is one legitimate choice); theorems either hold for
every such `pick` or exhibit behaviour under a concrete one. -/
def HandleGetMediaDownloadingStatus
    (pick : List (String × Int) → List (String × Int))
    (torrentsRes : Except String (List Torrent))
    (preMatchesRes : Except String (List TorrentPreMatch)) :
    List MediaDownloadStatus :=
  match torrentsRes with
  | .error _ => []
  | .ok torrents =>
    match preMatchesRes with
    | .error _ => []
    | .ok preMatches =>
      matchTorrents (pick (buildDestToMediaId preMatches)) [] torrents

/-! ## Concrete inputs used by counterexamples and witnesses -/

/-- A provider environment in which every provider is registered and every
magnet resolution succeeds. -/
def okProvider : TorrentProviderEnv :=
  { providerFound := fun _ => true,
    magnetLink := fun t => .ok ("magnet:" ++ t.InfoHash) }

/-- A download environment in which every daemon call succeeds. -/
def c1env : DownloadEnv :=
  { startOk := true, smartSelectResult := .ok (), deselectResult := .ok (),
    addMagnetsResult := .ok (), provider := okProvider }

/-- A single-torrent request with smart-select enabled and deselect
disabled. -/
def c1body : DownloadBody :=
  { torrents := [{ Provider := "nyaa", InfoHash := "abc" }],
    destination := "/downloads/show",
    smartSelect := { enabled := true, missingEpisodeNumbers := [1, 2] },
    deselect := { enabled := false, indices := [] },
    media := { ID := 10 } }

/-- A listing environment in which the first listing fails, the restart
succeeds, and the retried listing fails again with an empty result slot. -/
def c3env : ActiveListEnv :=
  { firstList := .error "client unavailable", startOk := true,
    retryListRes := [], retryListErr := some "client still unavailable" }

/-- A probe environment in which everything succeeds except the file
listing itself; the removal collaborator would succeed if called. -/
def c4env : GetFilesEnv :=
  { mkdirTempOk := true, provider := okProvider, addMagnetsResult := .ok (),
    getFilesResult := .error "listing failed", removeResult := .ok () }

/-- A probe environment in which every collaborator call succeeds. -/
def c4wenv : GetFilesEnv :=
  { mkdirTempOk := true, provider := okProvider, addMagnetsResult := .ok (),
    getFilesResult := .ok ["show/ep01.mkv"], removeResult := .ok () }

/-- The probe request for torrent `abc`. -/
def c4body : GetFilesBody :=
  { torrent := some { Provider := "nyaa", InfoHash := "abc" }, provider := "nyaa" }

/-- A smart-select request submitting two torrents. -/
def c5body : DownloadBody :=
  { torrents := [{ Provider := "nyaa", InfoHash := "aaa" },
                 { Provider := "nyaa", InfoHash := "bbb" }],
    destination := "/downloads/show",
    smartSelect := { enabled := true, missingEpisodeNumbers := [1] },
    deselect := { enabled := false, indices := [] },
    media := { ID := 10 } }

/-- An authenticated, non-simulated session used to instantiate the
progress-update and token-hiding theorems. -/
def c6sess : Session :=
  { ID := "sid", Token := "jwt-token", Username := "user",
    Viewer := some { Name := "user" }, CreatedAt := 0, LastAccessed := 0,
    IsSimulated := false }

/-- Two active torrents: the first matches both stored destinations below,
the second only the shorter one. -/
def c7torrents : List Torrent :=
  [{ hash := "h1", status := "downloading", progress := 5, contentPath := "/lib/x/f" },
   { hash := "h2", status := "seeding", progress := 7, contentPath := "/lib/y/f" }]

/-- Two stored pre-matches with overlapping destinations: `/lib/x` for
catalog 1 and `/lib` for catalog 2. -/
def c7preMatches : List TorrentPreMatch :=
  [{ destination := "/lib/x", mediaId := 1 }, { destination := "/lib", mediaId := 2 }]

/-- The same session as `c6sess` but with a different token value. -/
def c10sess2 : Session :=
  { ID := "sid", Token := "other-token", Username := "user",
    Viewer := some { Name := "user" }, CreatedAt := 0, LastAccessed := 0,
    IsSimulated := false }

/-! ## Claim C1: exclusivity of the acquisition branches -/

/-- C1 counterexample: with every collaborator succeeding, a request with
smart-select enabled and deselect disabled runs the smart-select algorithm
AND additionally resolves magnets and issues an addMagnets call — the
smart-select block of the source is not connected by an `else` to the
deselect/plain-add alternative, so the claimed branch exclusivity is false. -/
theorem C1_smart_select_also_adds :
    c1body.smartSelect.enabled = true
    ∧ c1body.deselect.enabled = false
    ∧ (HandleTorrentClientDownload c1env c1body).2 = .ok true
    ∧ DaemonOp.smartSelect { Provider := "nyaa", InfoHash := "abc" } [1, 2] "/downloads/show"
        ∈ (HandleTorrentClientDownload c1env c1body).1
    ∧ DaemonOp.addMagnets ["magnet:abc"] "/downloads/show"
        ∈ (HandleTorrentClientDownload c1env c1body).1 :=
  ⟨rfl, rfl, rfl, by decide, by decide⟩

/-- C1 (corrected): for a single-torrent request passing validation with
all collaborators succeeding, the daemon trace is a start, then the
smart-select operation when smart-select is requested, then — regardless of
smart-select — exactly one of the deselect operation (when deselect is
requested) or a single addMagnets call with the resolved magnets.  So the
deselect/plain-add choice is exclusive, but smart-select runs in addition
to, not instead of, that choice. -/
theorem C1_acquisition_branches (env : DownloadEnv) (b : DownloadBody)
    (t : AnimeTorrent) (ms : List String)
    (hts : b.torrents = [t])
    (hdest : b.destination ≠ "")
    (habs : isAbs b.destination = true)
    (hstart : env.startOk = true)
    (hss : env.smartSelectResult = .ok ())
    (hds : env.deselectResult = .ok ())
    (ham : env.addMagnetsResult = .ok ())
    (hmag : resolveMagnets env.provider b.torrents = .ok ms) :
    HandleTorrentClientDownload env b =
      ([DaemonOp.start]
        ++ (if b.smartSelect.enabled then
              [DaemonOp.smartSelect t b.smartSelect.missingEpisodeNumbers b.destination]
            else [])
        ++ (if b.deselect.enabled then
              [DaemonOp.deselectAndDownload t b.deselect.indices b.destination]
            else [DaemonOp.addMagnets ms b.destination]),
       .ok true) := by
  rw [hts] at hmag
  cases hsm : b.smartSelect.enabled <;> cases hde : b.deselect.enabled <;>
    simp [HandleTorrentClientDownload, afterSmartSelect, hts, hdest, habs, hstart,
      hss, hds, ham, hmag, hsm, hde]

/-- C1 witness: the branch-structure theorem evaluated on the concrete
smart-select request. -/
theorem C1_acquisition_branches_witness :
    HandleTorrentClientDownload c1env c1body =
      ([DaemonOp.start,
        DaemonOp.smartSelect { Provider := "nyaa", InfoHash := "abc" } [1, 2] "/downloads/show",
        DaemonOp.addMagnets ["magnet:abc"] "/downloads/show"], .ok true) := by
  have h := C1_acquisition_branches c1env c1body { Provider := "nyaa", InfoHash := "abc" }
    ["magnet:abc"] rfl (by decide) rfl rfl rfl rfl rfl rfl
  simpa using h

/-! ## Claim C2: pre-match path lookup -/

/-- C2 counterexample: after saving destination `/library/Foo`, a file in
the sibling directory `/library/Foo2` is matched and its media id returned,
although `/library/Foo` is not a whole-path-segment prefix of the file
path — the source compares raw string prefixes. -/
theorem C2_sibling_directory_match :
    GetTorrentPreMatchForFilePath (SaveTorrentPreMatch [] "/library/Foo" 7)
        "/library/Foo2/ep01.mkv" = some 7
    ∧ wholeSegmentMatch (NormalizePath "/library/Foo")
        (NormalizePath "/library/Foo2/ep01.mkv") = false := by decide

/-- C2 (corrected): `getForPath` returns a media id exactly when some
stored entry has a normalized destination that is a raw string prefix of
the normalized file path (not necessarily a whole-segment prefix), and the
concrete examples of the claim hold: after `save("/lib/Show", 99)`,
`getForPath("/lib/Show/ep01.mkv")` is 99 and
`getForPath("/lib/Other/ep01.mkv")` is not-found. -/
theorem C2_raw_string_matching (store : List TorrentPreMatch) (p : String) :
    (∀ id, GetTorrentPreMatchForFilePath store p = some id →
       ∃ pm ∈ store,
         strStartsWith (NormalizePath pm.destination) (NormalizePath p) = true
         ∧ pm.mediaId = id)
    ∧ ((∃ pm ∈ store,
          strStartsWith (NormalizePath pm.destination) (NormalizePath p) = true) →
       (GetTorrentPreMatchForFilePath store p).isSome = true)
    ∧ GetTorrentPreMatchForFilePath (SaveTorrentPreMatch [] "/lib/Show" 99)
        "/lib/Show/ep01.mkv" = some 99
    ∧ GetTorrentPreMatchForFilePath (SaveTorrentPreMatch [] "/lib/Show" 99)
        "/lib/Other/ep01.mkv" = none := by
  refine ⟨?_, ?_, by decide, by decide⟩
  · intro id h
    simp only [GetTorrentPreMatchForFilePath, Option.map_eq_some'] at h
    obtain ⟨pm, hfind, hid⟩ := h
    have hp := List.find?_some hfind
    simp only at hp
    exact ⟨pm, List.mem_of_find?_eq_some hfind, hp, hid⟩
  · rintro ⟨pm, hmem, hpre⟩
    simp only [GetTorrentPreMatchForFilePath, Option.isSome_map']
    rw [List.find?_isSome]
    exact ⟨pm, hmem, hpre⟩

/-- C2 witness: the raw-matching theorem evaluated on a one-entry store. -/
theorem C2_raw_string_matching_witness :
    ∃ pm ∈ [({ destination := "/lib/show", mediaId := 99 } : TorrentPreMatch)],
      strStartsWith (NormalizePath pm.destination) (NormalizePath "/lib/show/ep01.mkv") = true
      ∧ pm.mediaId = 99 :=
  (C2_raw_string_matching [{ destination := "/lib/show", mediaId := 99 }]
    "/lib/show/ep01.mkv").1 99 (by decide)

/-! ## Claim C3: listing retry discipline -/

/-- C3 counterexample: the retried listing fails, yet the handler responds
with its (empty) result slot as success data instead of propagating the
error — the source never checks the error of the retried call. -/
theorem C3_retry_error_swallowed :
    c3env.retryListErr = some "client still unavailable"
    ∧ HandleGetActiveTorrentList c3env =
        ([TCOp.getActiveTorrents, TCOp.start, TCOp.getActiveTorrents], .data []) :=
  ⟨rfl, rfl⟩

/-- C3 (corrected): when the initial listing fails, the handler attempts
the restart exactly once; a restart failure is propagated as an error; a
restart success is followed by exactly one retried listing whose result
slot is returned as success data regardless of whether the retried call
failed — the retried error is swallowed, never propagated. -/
theorem C3_retry_once (env : ActiveListEnv) (e : String)
    (hfail : env.firstList = .error e) :
    (env.startOk = false →
      HandleGetActiveTorrentList env =
        ([TCOp.getActiveTorrents, TCOp.start],
         .error "could not start torrent client, verify your settings"))
    ∧ (env.startOk = true →
      HandleGetActiveTorrentList env =
        ([TCOp.getActiveTorrents, TCOp.start, TCOp.getActiveTorrents],
         .data env.retryListRes)) := by
  constructor <;> intro h <;> simp [HandleGetActiveTorrentList, hfail, h]

/-- C3 witness: the retry-discipline theorem evaluated on the concrete
environment whose retried listing fails. -/
theorem C3_retry_once_witness :
    HandleGetActiveTorrentList c3env =
      ([TCOp.getActiveTorrents, TCOp.start, TCOp.getActiveTorrents], .data []) :=
  (C3_retry_once c3env "client unavailable" rfl).2 rfl

/-! ## Claim C4: the file-probe sequence -/

/-- C4 counterexample: the torrent was not tracked, the add succeeded and
the listing failed; the handler responds with the listing error but leaves
the transiently added torrent in the daemon (no removal is attempted on
that path), even though the removal collaborator would have succeeded. -/
theorem C4_residual_on_listing_failure :
    ([] : List String).contains "abc" = false
    ∧ HandleTorrentClientGetFiles c4env [] c4body =
        ([ProbeOp.addMagnets "magnet:abc" "tempDir", ProbeOp.getFiles "abc"],
         ["abc"], .error "listing failed") :=
  ⟨rfl, rfl⟩

/-- C4 (corrected): for a probe passing validation: a torrent already
tracked by the daemon is never removed and the daemon state is unchanged;
for an untracked torrent whose add and listing succeed, the file list is
returned as data even if the removal fails (the failure is not surfaced),
the daemon is left unchanged when the removal succeeds, and the torrent
remains when the removal fails; but when the listing itself fails on a
transiently added torrent, the error is surfaced and the torrent remains
in the daemon — no removal is attempted on that path. -/
theorem C4_probe_cleanup (env : GetFilesEnv) (daemon : List String)
    (t : AnimeTorrent) (b : GetFilesBody) (magnet : String)
    (hb : b.torrent = some t) (hh : t.InfoHash ≠ "")
    (hmk : env.mkdirTempOk = true)
    (hpf : env.provider.providerFound b.provider = true)
    (hmag : env.provider.magnetLink t = .ok magnet) :
    (daemon.contains t.InfoHash = true →
      (HandleTorrentClientGetFiles env daemon b).2.1 = daemon
      ∧ ∀ h, ProbeOp.removeTorrents h ∉ (HandleTorrentClientGetFiles env daemon b).1)
    ∧ (daemon.contains t.InfoHash = false →
       ∀ files, env.addMagnetsResult = .ok () → env.getFilesResult = .ok files →
        (HandleTorrentClientGetFiles env daemon b).2.2 = .data files
        ∧ (env.removeResult = .ok () →
            (HandleTorrentClientGetFiles env daemon b).2.1 = daemon)
        ∧ (∀ e, env.removeResult = .error e →
            (HandleTorrentClientGetFiles env daemon b).2.1 = daemon ++ [t.InfoHash]))
    ∧ (daemon.contains t.InfoHash = false →
       ∀ e, env.addMagnetsResult = .ok () → env.getFilesResult = .error e →
         (HandleTorrentClientGetFiles env daemon b).2.2 = .error e
         ∧ (HandleTorrentClientGetFiles env daemon b).2.1 = daemon ++ [t.InfoHash]) := by
  refine ⟨?_, ?_, ?_⟩
  · intro hex
    have hmem : t.InfoHash ∈ daemon := by simpa using hex
    cases hg : env.getFilesResult <;>
      simp [HandleTorrentClientGetFiles, hb, hh, hmk, hpf, hmag, hmem, hg]
  · intro hex files hadd hget
    have hmem : t.InfoHash ∉ daemon := by simpa using hex
    refine ⟨?_, ?_, ?_⟩
    · cases hr : env.removeResult <;>
        simp [HandleTorrentClientGetFiles, hb, hh, hmk, hpf, hmag, hmem, hadd, hget, hr]
    · intro hr
      simp [HandleTorrentClientGetFiles, hb, hh, hmk, hpf, hmag, hmem, hadd, hget, hr]
      exact fun a ha hcon => hmem (hcon ▸ ha)
    · intro e hr
      simp [HandleTorrentClientGetFiles, hb, hh, hmk, hpf, hmag, hmem, hadd, hget, hr]
  · intro hex e hadd hget
    have hmem : t.InfoHash ∉ daemon := by simpa using hex
    simp [HandleTorrentClientGetFiles, hb, hh, hmk, hpf, hmag, hmem, hadd, hget]

/-- C4 witness: the probe theorem evaluated on an untracked torrent with a
successful listing and removal: the file list is returned and the daemon
ends empty. -/
theorem C4_probe_cleanup_witness :
    (HandleTorrentClientGetFiles c4wenv [] c4body).2.2 = .data ["show/ep01.mkv"]
    ∧ (HandleTorrentClientGetFiles c4wenv [] c4body).2.1 = [] := by
  have h := (C4_probe_cleanup c4wenv [] { Provider := "nyaa", InfoHash := "abc" } c4body
    "magnet:abc" rfl (by decide) rfl rfl rfl).2.1 rfl ["show/ep01.mkv"] rfl rfl
  exact ⟨h.1, h.2.1 rfl⟩

/-! ## Claim C5: multi-torrent smart-select rejection -/

/-- C5 counterexample: a smart-select request with two torrents is rejected
with the invalid-request error, but the daemon trace already contains a
start operation — the source starts the torrent client before validating
the smart-select torrent count, so the rejection does not precede every
daemon state change. -/
theorem C5_start_before_reject :
    c5body.torrents.length > 1
    ∧ (HandleTorrentClientDownload c1env c5body).2 =
        .error "smart select is not supported for multiple torrents"
    ∧ DaemonOp.start ∈ (HandleTorrentClientDownload c1env c5body).1 :=
  ⟨by decide, rfl, by decide⟩

/-- C5 (corrected): a smart-select request with more than one torrent is
rejected synchronously with the invalid-request error and no add or
selection operation is performed — but the daemon start (ensure-running)
attempt does happen before the rejection, so the trace is exactly the
start operation. -/
theorem C5_reject_after_start (env : DownloadEnv) (b : DownloadBody)
    (hsm : b.smartSelect.enabled = true) (hlen : b.torrents.length > 1)
    (hdest : b.destination ≠ "") (habs : isAbs b.destination = true)
    (hstart : env.startOk = true) :
    HandleTorrentClientDownload env b =
      ([DaemonOp.start], .error "smart select is not supported for multiple torrents") := by
  simp [HandleTorrentClientDownload, hdest, habs, hstart, hsm, hlen]

/-- C5 witness: the rejection theorem evaluated on the concrete two-torrent
request. -/
theorem C5_reject_after_start_witness :
    HandleTorrentClientDownload c1env c5body =
      ([DaemonOp.start], .error "smart select is not supported for multiple torrents") :=
  C5_reject_after_start c1env c5body rfl (by decide) (by decide) rfl rfl

/-! ## Claim C6: progress status and clamping -/

/-- C6 (confirmed): for an authenticated, non-simulated session with a
session-specific client, the update goes to the session client; the status
sent is completed exactly when the total episode count is present and
positive and the progress reaches or exceeds it (otherwise current); and
for a positive total the progress sent never exceeds the total: it is
clamped down to the total when it would exceed it and passed through
unchanged otherwise. -/
theorem C6_progress_status (sessionID : String) (s : Session)
    (mediaId progress : Int) (totalEpisodes : Option Int)
    (hsid : sessionID ≠ "") (hsim : s.IsSimulated = false) (htok : s.Token ≠ "") :
    ∃ sent status,
      UpdateEntryProgressForSession true sessionID (some s) true mediaId progress totalEpisodes
        = .sessionClient mediaId sent status
      ∧ (status = .completed ↔ ∃ tot, totalEpisodes = some tot ∧ 0 < tot ∧ tot ≤ progress)
      ∧ (∀ tot, totalEpisodes = some tot → 0 < tot →
           sent ≤ tot ∧ (tot < progress → sent = tot) ∧ (progress ≤ tot → sent = progress)) := by
  cases totalEpisodes with
  | none =>
    refine ⟨progress, .current, ?_, by simp, by intro tot htot; cases htot⟩
    simp [UpdateEntryProgressForSession, hsid, hsim, htok]
  | some tot =>
    by_cases ht : tot > 0
    · by_cases hge : progress ≥ tot
      · by_cases hgt : progress > tot
        · refine ⟨tot, .completed, ?_, ?_, ?_⟩
          · simp [UpdateEntryProgressForSession, hsid, hsim, htok, ht, hge, hgt]
          · simp only [true_iff]
            exact ⟨tot, rfl, ht, hge⟩
          · intro tot2 htot2 _
            cases htot2
            exact ⟨le_refl _, fun _ => rfl, fun h => absurd h (not_le.mpr hgt)⟩
        · have heq : progress = tot := le_antisymm (not_lt.mp hgt) hge
          refine ⟨progress, .completed, ?_, ?_, ?_⟩
          · simp [UpdateEntryProgressForSession, hsid, hsim, htok, ht, hge, hgt]
          · simp only [true_iff]
            exact ⟨tot, rfl, ht, hge⟩
          · intro tot2 htot2 _
            cases htot2
            exact ⟨le_of_eq heq, fun h => absurd h hgt, fun _ => rfl⟩
      · refine ⟨progress, .current, ?_, ?_, ?_⟩
        · simp [UpdateEntryProgressForSession, hsid, hsim, htok, ht, hge,
            not_lt.mp (fun h => hge (le_of_lt h))]
        · constructor
          · intro h; cases h
          · rintro ⟨tot2, htot2, h1, h2⟩
            cases htot2
            exact absurd h2 hge
        · intro tot2 htot2 _
          cases htot2
          exact ⟨le_of_lt (not_le.mp hge), fun h => absurd (le_of_lt h) (fun hh => hge hh),
            fun _ => rfl⟩
    · refine ⟨progress, .current, ?_, ?_, ?_⟩
      · simp [UpdateEntryProgressForSession, hsid, hsim, htok, ht]
      · constructor
        · intro h; cases h
        · rintro ⟨tot2, htot2, h1, h2⟩
          cases htot2
          exact absurd h1 ht
      · intro tot2 htot2 h2
        cases htot2
        exact absurd h2 ht

/-- C6 witness: the progress theorem evaluated for an authenticated session
at progress 12 of 10 total episodes. -/
theorem C6_progress_status_witness :
    ∃ sent status,
      UpdateEntryProgressForSession true "sid" (some c6sess) true 42 12 (some 10)
        = .sessionClient 42 sent status
      ∧ (status = .completed ↔ ∃ tot, (some 10 : Option Int) = some tot ∧ 0 < tot ∧ tot ≤ 12)
      ∧ (∀ tot, (some 10 : Option Int) = some tot → 0 < tot →
           sent ≤ tot ∧ (tot < 12 → sent = tot) ∧ ((12 : Int) ≤ tot → sent = 12)) :=
  C6_progress_status "sid" c6sess 42 12 (some 10) (by decide) rfl (by decide)

/-! ## Claim C7: media downloading status aggregation -/

/-- Records emitted by the matching loop carry media ids that were not
already in the accumulator. -/
theorem matchTorrents_not_added (destIndex : List (String × Int)) :
    ∀ (ts : List Torrent) (added : List Int) (r : MediaDownloadStatus),
      r ∈ matchTorrents destIndex added ts → r.MediaId ∉ added := by
  intro ts
  induction ts with
  | nil => intro added r h; simp [matchTorrents] at h
  | cons t rest ih =>
    intro added r h
    simp only [matchTorrents] at h
    cases hf : destIndex.find? (fun dm => strStartsWith dm.1 (NormalizePath t.contentPath)) with
    | none =>
      rw [hf] at h
      dsimp only at h
      exact ih added r h
    | some dm =>
      rw [hf] at h
      dsimp only at h
      by_cases hadd : dm.2 ∈ added
      · rw [if_pos hadd] at h
        exact ih added r h
      · rw [if_neg hadd] at h
        rcases List.mem_cons.mp h with h1 | h1
        · subst h1
          exact hadd
        · have h2 := ih _ r h1
          exact fun hc => h2 (List.mem_cons_of_mem _ hc)

/-- The media ids of the records emitted by the matching loop are pairwise
distinct. -/
theorem matchTorrents_nodup (destIndex : List (String × Int)) :
    ∀ (ts : List Torrent) (added : List Int),
      ((matchTorrents destIndex added ts).map (fun r => r.MediaId)).Nodup := by
  intro ts
  induction ts with
  | nil => intro added; simp [matchTorrents]
  | cons t rest ih =>
    intro added
    simp only [matchTorrents]
    cases hf : destIndex.find? (fun dm => strStartsWith dm.1 (NormalizePath t.contentPath)) with
    | none =>
      dsimp only
      exact ih added
    | some dm =>
      dsimp only
      by_cases hadd : dm.2 ∈ added
      · rw [if_pos hadd]
        exact ih added
      · rw [if_neg hadd]
        simp only [List.map_cons, List.nodup_cons]
        constructor
        · intro hmemmap
          obtain ⟨r, hr, hrid⟩ := List.mem_map.mp hmemmap
          have h2 := matchTorrents_not_added destIndex rest (dm.2 :: added) r hr
          exact h2 (hrid ▸ List.mem_cons_self _ _)
        · exact ih _

/-- Every record emitted by the matching loop takes its status and progress
from some torrent in the list whose normalized content path extends a
destination of that media id in the index. -/
theorem matchTorrents_sound (destIndex : List (String × Int)) :
    ∀ (ts : List Torrent) (added : List Int) (r : MediaDownloadStatus),
      r ∈ matchTorrents destIndex added ts →
      ∃ t ∈ ts, r.Status = t.status ∧ r.Progress = t.progress ∧
        ∃ d, (d, r.MediaId) ∈ destIndex
          ∧ strStartsWith d (NormalizePath t.contentPath) = true := by
  intro ts
  induction ts with
  | nil => intro added r h; simp [matchTorrents] at h
  | cons t rest ih =>
    intro added r h
    simp only [matchTorrents] at h
    cases hf : destIndex.find? (fun dm => strStartsWith dm.1 (NormalizePath t.contentPath)) with
    | none =>
      rw [hf] at h
      dsimp only at h
      obtain ⟨t2, ht2, hrest⟩ := ih added r h
      exact ⟨t2, List.mem_cons_of_mem _ ht2, hrest⟩
    | some dm =>
      rw [hf] at h
      dsimp only at h
      by_cases hadd : dm.2 ∈ added
      · rw [if_pos hadd] at h
        obtain ⟨t2, ht2, hrest⟩ := ih added r h
        exact ⟨t2, List.mem_cons_of_mem _ ht2, hrest⟩
      · rw [if_neg hadd] at h
        rcases List.mem_cons.mp h with h1 | h1
        · subst h1
          refine ⟨t, List.mem_cons_self _ _, rfl, rfl, dm.1, ?_, ?_⟩
          · have hmem := List.mem_of_find?_eq_some hf
            simpa using hmem
          · have hp := List.find?_some hf
            simpa using hp
        · obtain ⟨t2, ht2, hrest⟩ := ih _ r h1
          exact ⟨t2, List.mem_cons_of_mem _ ht2, hrest⟩

/-- C7 counterexample: under the (legitimate) insertion-order iteration of
the destination index, the first torrent — whose content path extends both
stored destinations — is attributed to catalog 1, so the record emitted for
catalog 2 carries the status and progress of the SECOND torrent, although
the first torrent in daemon-list order also matches the destination of
catalog 2.  The claimed first-match-wins rule is therefore false in
general: the attribution depends on the unspecified map iteration order. -/
theorem C7_first_match_not_respected :
    HandleGetMediaDownloadingStatus id (.ok c7torrents) (.ok c7preMatches) =
      [{ MediaId := 1, Status := "downloading", Progress := 5 },
       { MediaId := 2, Status := "seeding", Progress := 7 }]
    ∧ c7torrents.head? = some
        { hash := "h1", status := "downloading", progress := 5, contentPath := "/lib/x/f" }
    ∧ (NormalizePath "/lib", (2 : Int)) ∈ buildDestToMediaId c7preMatches
    ∧ strStartsWith (NormalizePath "/lib") (NormalizePath "/lib/x/f") = true := by decide

/-- C7 (corrected): for every iteration order of the destination index, the
query returns the empty list (as data, not an error) whenever fetching the
active torrents or the pre-match entries fails; on success each catalog id
appears at most once in the result; and every emitted record carries the
status and progress of some active torrent whose normalized content path
has a stored destination of that catalog id as a raw string prefix.  Which
matching torrent supplies the record depends on the unspecified iteration
order of the destination index, so it is not in general the first matching
torrent in daemon-list order. -/
theorem C7_status_shape (pick : List (String × Int) → List (String × Int))
    (torrentsRes : Except String (List Torrent))
    (preMatchesRes : Except String (List TorrentPreMatch)) :
    (∀ e, torrentsRes = .error e →
      HandleGetMediaDownloadingStatus pick torrentsRes preMatchesRes = [])
    ∧ (∀ e, preMatchesRes = .error e →
      HandleGetMediaDownloadingStatus pick torrentsRes preMatchesRes = [])
    ∧ ((HandleGetMediaDownloadingStatus pick torrentsRes preMatchesRes).map
        (fun r => r.MediaId)).Nodup
    ∧ (∀ ts pms, torrentsRes = .ok ts → preMatchesRes = .ok pms →
        ∀ r ∈ HandleGetMediaDownloadingStatus pick torrentsRes preMatchesRes,
          ∃ t ∈ ts, r.Status = t.status ∧ r.Progress = t.progress ∧
            ∃ d, (d, r.MediaId) ∈ pick (buildDestToMediaId pms)
              ∧ strStartsWith d (NormalizePath t.contentPath) = true) := by
  refine ⟨?_, ?_, ?_, ?_⟩
  · intro e he
    simp [HandleGetMediaDownloadingStatus, he]
  · intro e he
    cases torrentsRes <;> simp [HandleGetMediaDownloadingStatus, he]
  · cases torrentsRes with
    | error e => simp [HandleGetMediaDownloadingStatus]
    | ok ts =>
      cases preMatchesRes with
      | error e => simp [HandleGetMediaDownloadingStatus]
      | ok pms =>
        simp only [HandleGetMediaDownloadingStatus]
        exact matchTorrents_nodup _ ts []
  · intro ts pms hts hpms r hr
    subst hts
    subst hpms
    simp only [HandleGetMediaDownloadingStatus] at hr
    exact matchTorrents_sound _ ts [] r hr

/-- C7 witness: the aggregation theorem evaluated when fetching the active
torrents fails. -/
theorem C7_status_shape_witness :
    HandleGetMediaDownloadingStatus id (.error "daemon unavailable") (.ok c7preMatches) = [] :=
  (C7_status_shape id (.error "daemon unavailable") (.ok c7preMatches)).1
    "daemon unavailable" rfl

/-! ## Claim C8: session creation and reuse -/

/-- C8 (confirmed): for a session id not yet in the store, `get` returns a
fresh simulated session with empty token and null identity and stores it; a
second `get` with the same id returns the stored session — identical in
every field except that its last-accessed time is the time of the second
call — and the store afterwards maps the id to exactly that returned
session (the source mutates and returns the stored object itself). -/
theorem C8_get_session (sessions : String → Option Session) (sessionID : String)
    (t1 t2 : Nat) (hfresh : sessions sessionID = none) :
    (GetSession sessions sessionID t1).1 =
      { ID := sessionID, Token := "", Username := "", Viewer := none,
        CreatedAt := t1, LastAccessed := t1, IsSimulated := true }
    ∧ (GetSession sessions sessionID t1).2 sessionID =
        some (GetSession sessions sessionID t1).1
    ∧ (GetSession (GetSession sessions sessionID t1).2 sessionID t2).1 =
        { (GetSession sessions sessionID t1).1 with LastAccessed := t2 }
    ∧ (GetSession (GetSession sessions sessionID t1).2 sessionID t2).2 sessionID =
        some (GetSession (GetSession sessions sessionID t1).2 sessionID t2).1 := by
  simp [GetSession, hfresh]

/-- C8 witness: the session theorem evaluated on an empty store at times 3
and 8. -/
theorem C8_get_session_witness :
    (GetSession (fun _ => none) "tab1" 3).1 =
      { ID := "tab1", Token := "", Username := "", Viewer := none,
        CreatedAt := 3, LastAccessed := 3, IsSimulated := true }
    ∧ (GetSession (GetSession (fun _ => none) "tab1" 3).2 "tab1" 8).1 =
      { (GetSession (fun _ => none) "tab1" 3).1 with LastAccessed := 8 } := by
  have h := C8_get_session (fun _ => none) "tab1" 3 8 rfl
  exact ⟨h.1, h.2.2.1⟩

/-! ## Claim C9: age-based cleanup cutoff -/

/-- C9 (code_bug): the SQLite modifier built by the cleanup is not the
decimal representation of the day count.  For 49 days the modifier is
literally "-1 days" — the character with code point 49 is the digit 1 — so
entries merely older than one day would be deleted; for 30 days the
modifier contains the unprintable character U+001E and is not the claimed
"-30 days". -/
theorem C9_cutoff_is_rune_not_decimal :
    cleanupAgeModifier 49 = "-1 days"
    ∧ claimedAgeModifier 49 = "-49 days"
    ∧ cleanupAgeModifier 49 ≠ claimedAgeModifier 49
    ∧ cleanupAgeModifier 30 ≠ claimedAgeModifier 30 := by decide

/-! ## Claim C10: token hiding in user conversion -/

/-- C10 (confirmed): converting a session to a user never exposes the
stored token: a simulated or empty-token session yields the simulated
user, an authenticated session yields a user whose token field is the
fixed placeholder "HIDDEN", and two authenticated sessions identical
except for their token values convert to identical user records. -/
theorem C10_token_hiding (s s2 : Session) :
    ((s.IsSimulated = true ∨ s.Token = "") → s.ToUser = NewSimulatedUser)
    ∧ (s.IsSimulated = false → s.Token ≠ "" → (s.ToUser).Token = "HIDDEN")
    ∧ (s.IsSimulated = false → s2.IsSimulated = false → s.Token ≠ "" → s2.Token ≠ "" →
       s2 = { s with Token := s2.Token } → s.ToUser = s2.ToUser) := by
  refine ⟨?_, ?_, ?_⟩
  · intro h
    rcases h with h | h <;> simp [Session.ToUser, h]
  · intro h1 h2
    simp [Session.ToUser, h1, h2]
  · intro h1 h2 h3 h4 h5
    rw [h5]
    simp [Session.ToUser, h1, h3, h4]

/-- C10 witness: the token-hiding theorem evaluated on two authenticated
sessions differing only in their tokens. -/
theorem C10_token_hiding_witness :
    (c6sess.ToUser).Token = "HIDDEN" ∧ c6sess.ToUser = c10sess2.ToUser := by
  have h := C10_token_hiding c6sess c10sess2
  exact ⟨h.2.1 rfl (by decide), h.2.2 rfl rfl (by decide) (by decide) (by decide)⟩

end Animechanica
